import Mathlib

/-!
Shallow embedding of the exit-execution engine of the lasersell repository
(src/app/mod.rs, src/market/context_from_msg.rs, src/market/context_to_msg.rs,
src/market/mod.rs, src/stream/mod.rs, src/events/mod.rs).

Modelling conventions:
* Solana public keys are abstracted to natural numbers (`Pubkey := Nat`);
  the base58 `Pubkey::from_str` parse is abstracted to decimal-digit
  parsing, preserving its shape: a partial, injective parse with inverse
  `toString`.  Unparseable strings model invalid base58 input.
* `u16`/`u64`/`usize` are modelled as `Nat` with saturation made explicit
  where the source uses saturating arithmetic (`bumped_slippage_bps`).
* The async effects (RPC submission, stream sends, the refresh channel,
  keypair decoding) are modelled as explicit oracles passed to the
  functions that await them; each oracle value is the outcome the
  corresponding await would produce.
* State mutation through `Arc<RwLock<HashMap<..>>>` handles is modelled as
  functional maps `Pubkey → Option α` threaded through the handlers.
* `emit(AppEvent::..)` is modelled by returning the list of emitted events;
  spawning a task is modelled by returning a descriptor of the spawned
  task, so "no task spawned" is `spawned = []`.
-/

abbrev Pubkey := Nat

/-- Digit-list accumulator for `pubkey_from_str`. -/
def pubkey_from_str_core (acc : Nat) : List Char → Option Nat
  | [] => some acc
  | c :: cs =>
    if c.isDigit then pubkey_from_str_core (acc * 10 + (c.toNat - 48)) cs else none

/-- Model of `Pubkey::from_str`: partial injective parse (non-empty decimal
digit strings; anything else is invalid, as invalid base58 would be). -/
def pubkey_from_str (s : String) : Option Pubkey :=
  match s.data with
  | [] => none
  | c :: cs => pubkey_from_str_core 0 (c :: cs)

/-- Model of `Pubkey::to_string`: the inverse rendering of `pubkey_from_str`. -/
def pubkey_to_string (p : Pubkey) : String := toString p

/-- Model of `USD1_MINT` (src/market/mod.rs): a fixed valid pubkey string. -/
def USD1_MINT : String := "1001"

/-- `usd1_mint()` from src/market/mod.rs: parse of the fixed constant. -/
def usd1_mint : Pubkey := (pubkey_from_str USD1_MINT).getD 0

/-- `MarketType` from src/market/mod.rs. -/
inductive MarketType where
  | PumpFun
  | MeteoraDbc
  | PumpSwap
  | MeteoraDammV2
  | RaydiumLaunchpad
  | RaydiumCpmm
deriving DecidableEq, Repr

/-- `MeteoraDbcContext` from src/market/mod.rs. -/
structure MeteoraDbcContext where
  pool : Pubkey
  config : Pubkey
  quote_mint : Pubkey
deriving DecidableEq, Repr

/-- `PumpSwapContext` from src/market/mod.rs. -/
structure PumpSwapContext where
  pool : Pubkey
  global_config : Option Pubkey
deriving DecidableEq, Repr

/-- `DammV2Context` from src/market/mod.rs. -/
structure DammV2Context where
  pool : Pubkey
deriving DecidableEq, Repr

/-- `RaydiumLaunchpadContext` from src/market/mod.rs. -/
structure RaydiumLaunchpadContext where
  pool : Pubkey
  config : Pubkey
  platform : Pubkey
  quote_mint : Pubkey
  user_quote_account : Pubkey
deriving DecidableEq, Repr

/-- `RaydiumCpmmContext` from src/market/mod.rs. -/
structure RaydiumCpmmContext where
  pool : Pubkey
  config : Pubkey
  quote_mint : Pubkey
  user_quote_account : Pubkey
deriving DecidableEq, Repr

/-- `MarketContext` from src/market/mod.rs. -/
structure MarketContext where
  market_type : MarketType
  meteora_dbc : Option MeteoraDbcContext
  pumpswap : Option PumpSwapContext
  damm_v2 : Option DammV2Context
  raydium_launchpad : Option RaydiumLaunchpadContext
  raydium_cpmm : Option RaydiumCpmmContext
deriving DecidableEq, Repr

/-- `MarketContext::pumpfun()` constructor. -/
def MarketContext.pumpfun : MarketContext :=
  ⟨MarketType.PumpFun, none, none, none, none, none⟩

/-- `MarketContext::meteora_dbc(..)` constructor. -/
def MarketContext.mk_meteora_dbc (context : MeteoraDbcContext) : MarketContext :=
  ⟨MarketType.MeteoraDbc, some context, none, none, none, none⟩

/-- `MarketContext::pumpswap(..)` constructor. -/
def MarketContext.mk_pumpswap (context : PumpSwapContext) : MarketContext :=
  ⟨MarketType.PumpSwap, none, some context, none, none, none⟩

/-- `MarketContext::meteora_damm_v2(..)` constructor. -/
def MarketContext.mk_meteora_damm_v2 (context : DammV2Context) : MarketContext :=
  ⟨MarketType.MeteoraDammV2, none, none, some context, none, none⟩

/-- `MarketContext::raydium_launchpad(..)` constructor. -/
def MarketContext.mk_raydium_launchpad (context : RaydiumLaunchpadContext) : MarketContext :=
  ⟨MarketType.RaydiumLaunchpad, none, none, none, some context, none⟩

/-- `MarketContext::raydium_cpmm(..)` constructor. -/
def MarketContext.mk_raydium_cpmm (context : RaydiumCpmmContext) : MarketContext :=
  ⟨MarketType.RaydiumCpmm, none, none, none, none, some context⟩

/-- `MarketTypeMsg` of the stream protocol (lasersell_sdk::stream::proto). -/
inductive MarketTypeMsg where
  | PumpFun
  | PumpSwap
  | MeteoraDbc
  | MeteoraDammV2
  | RaydiumLaunchpad
  | RaydiumCpmm
deriving DecidableEq, Repr

/-- `PumpSwapContextMsg` wire message (string-encoded pubkeys). -/
structure PumpSwapContextMsg where
  pool : String
  global_config : Option String
deriving DecidableEq, Repr

/-- `MeteoraDbcContextMsg` wire message. -/
structure MeteoraDbcContextMsg where
  pool : String
  config : String
  quote_mint : String
deriving DecidableEq, Repr

/-- `MeteoraDammV2ContextMsg` wire message. -/
structure MeteoraDammV2ContextMsg where
  pool : String
deriving DecidableEq, Repr

/-- `RaydiumLaunchpadContextMsg` wire message. -/
structure RaydiumLaunchpadContextMsg where
  pool : String
  config : String
  platform : String
  quote_mint : String
  user_quote_account : String
deriving DecidableEq, Repr

/-- `RaydiumCpmmContextMsg` wire message. -/
structure RaydiumCpmmContextMsg where
  pool : String
  config : String
  quote_mint : String
  user_quote_account : String
deriving DecidableEq, Repr

/-- `MarketContextMsg` wire message (`pumpfun` carries no data). -/
structure MarketContextMsg where
  market_type : MarketTypeMsg
  pumpfun : Option Unit
  pumpswap : Option PumpSwapContextMsg
  meteora_dbc : Option MeteoraDbcContextMsg
  meteora_damm_v2 : Option MeteoraDammV2ContextMsg
  raydium_launchpad : Option RaydiumLaunchpadContextMsg
  raydium_cpmm : Option RaydiumCpmmContextMsg
deriving DecidableEq, Repr

/-- `parse_pubkey` from src/market/context_from_msg.rs: parse with a
field-naming error context. -/
def parse_pubkey (field : String) (value : String) : Except String Pubkey :=
  match pubkey_from_str value with
  | some p => Except.ok p
  | none => Except.error ("invalid pubkey for " ++ field)

/-- `market_context_from_msg` from src/market/context_from_msg.rs. -/
def market_context_from_msg (msg : MarketContextMsg) : Except String MarketContext :=
  match msg.market_type with
  | MarketTypeMsg.PumpFun => Except.ok MarketContext.pumpfun
  | MarketTypeMsg.PumpSwap =>
    match msg.pumpswap with
    | none => Except.error "pumpswap context missing"
    | some ctx => do
      let pool ← parse_pubkey "pumpswap.pool" ctx.pool
      let global_config ←
        match ctx.global_config with
        | some value => (parse_pubkey "pumpswap.global_config" value).map some
        | none => Except.ok none
      Except.ok (MarketContext.mk_pumpswap ⟨pool, global_config⟩)
  | MarketTypeMsg.MeteoraDbc =>
    match msg.meteora_dbc with
    | none => Except.error "meteora_dbc context missing"
    | some ctx => do
      let pool ← parse_pubkey "meteora_dbc.pool" ctx.pool
      let config ← parse_pubkey "meteora_dbc.config" ctx.config
      let quote_mint ← parse_pubkey "meteora_dbc.quote_mint" ctx.quote_mint
      Except.ok (MarketContext.mk_meteora_dbc ⟨pool, config, quote_mint⟩)
  | MarketTypeMsg.MeteoraDammV2 =>
    match msg.meteora_damm_v2 with
    | none => Except.error "meteora_damm_v2 context missing"
    | some ctx => do
      let pool ← parse_pubkey "meteora_damm_v2.pool" ctx.pool
      Except.ok (MarketContext.mk_meteora_damm_v2 ⟨pool⟩)
  | MarketTypeMsg.RaydiumLaunchpad =>
    match msg.raydium_launchpad with
    | none => Except.error "raydium_launchpad context missing"
    | some ctx => do
      let pool ← parse_pubkey "raydium_launchpad.pool" ctx.pool
      let config ← parse_pubkey "raydium_launchpad.config" ctx.config
      let platform ← parse_pubkey "raydium_launchpad.platform" ctx.platform
      let quote_mint ← parse_pubkey "raydium_launchpad.quote_mint" ctx.quote_mint
      let user_quote_account ←
        parse_pubkey "raydium_launchpad.user_quote_account" ctx.user_quote_account
      Except.ok (MarketContext.mk_raydium_launchpad
        ⟨pool, config, platform, quote_mint, user_quote_account⟩)
  | MarketTypeMsg.RaydiumCpmm =>
    match msg.raydium_cpmm with
    | none => Except.error "raydium_cpmm context missing"
    | some ctx => do
      let pool ← parse_pubkey "raydium_cpmm.pool" ctx.pool
      let config ← parse_pubkey "raydium_cpmm.config" ctx.config
      let quote_mint ← parse_pubkey "raydium_cpmm.quote_mint" ctx.quote_mint
      let user_quote_account ←
        parse_pubkey "raydium_cpmm.user_quote_account" ctx.user_quote_account
      Except.ok (MarketContext.mk_raydium_cpmm
        ⟨pool, config, quote_mint, user_quote_account⟩)

/-- `SellConfig` from src/config/mod.rs (u16/u64/usize fields as Nat). -/
structure SellConfig where
  slippage_pad_bps : Nat
  slippage_retry_bump_bps_first : Nat
  slippage_retry_bump_bps_next : Nat
  slippage_max_bps : Nat
  confirm_timeout_sec : Nat
  max_retries : Nat
deriving DecidableEq, Repr

/-- `canonical_sell_reason` from src/app/mod.rs. -/
def canonical_sell_reason (reason : String) : String :=
  if reason = "target" ∨ reason = "profit" ∨ reason = "target_profit" then "target"
  else if reason = "stop_loss" then "stop_loss"
  else if reason = "timeout" ∨ reason = "deadline_timeout" ∨ reason = "deadline" then "timeout"
  else if reason = "manual" ∨ reason = "manual_sell" then "manual"
  else reason

/-- `bumped_slippage_bps` from src/app/mod.rs: u16 `saturating_add` made
explicit (clamp at 65535), then `.min(slippage_max_bps)`. -/
def bumped_slippage_bps (current : Nat) (refreshes_used : Nat) (cfg : SellConfig) : Nat :=
  let bump :=
    if refreshes_used = 0 then cfg.slippage_retry_bump_bps_first
    else cfg.slippage_retry_bump_bps_next
  min (min (current + bump) 65535) cfg.slippage_max_bps

/-- `BondingCurveAccount` from src/stream/mod.rs. -/
structure BondingCurveAccount where
  complete : Bool
deriving DecidableEq, Repr

/-- `InMemoryMarketStreamState` from src/stream/mod.rs (its interior-mutable
fields flattened into an immutable record that handlers replace). -/
structure InMemoryMarketStreamState where
  market_type : MarketType
  latest_curve : Option BondingCurveAccount
  latest_fee_bps : Nat
  p95_down_per_slot : Nat
  position_tokens : Option Nat
  quoted_tokens : Nat
  quoted_sell_proceeds : Nat
  has_quote : Bool
deriving DecidableEq, Repr

/-- `InMemoryMarketStreamState::new(market_type)`. -/
def InMemoryMarketStreamState.new (market_type : MarketType) : InMemoryMarketStreamState :=
  ⟨market_type, none, 0, 0, none, 0, 0, false⟩

/-- `InMemoryMarketStreamState::market_type_value()`. -/
def InMemoryMarketStreamState.market_type_value (s : InMemoryMarketStreamState) : MarketType :=
  s.market_type

/-- `InMemoryMarketStreamState::set_position_tokens(tokens)`. -/
def InMemoryMarketStreamState.set_position_tokens (s : InMemoryMarketStreamState)
    (tokens : Option Nat) : InMemoryMarketStreamState :=
  { s with position_tokens := tokens }

/-- `PositionSnapshot` from src/app/mod.rs. -/
structure PositionSnapshot where
  position_id : Nat
  token_program : Option String
  tokens : Nat
  market_context : Option MarketContext
deriving DecidableEq, Repr

/-- The `AppEvent` constructors (src/events/mod.rs) emitted by the modelled
handlers.  `SessionStarted`'s wall-clock `started_at_ms` field is omitted
(real time is outside the model). -/
inductive AppEvent where
  | MintDetected (mint : Pubkey) (token_account : Pubkey)
  | SessionStarted (mint : Pubkey) (token_program : Pubkey)
  | SessionStreamState (mint : Pubkey) (stream_state : InMemoryMarketStreamState)
  | PositionTokensUpdated (mint : Pubkey) (tokens : Nat)
  | SellScheduled (mint : Pubkey) (reason : String) (profit_lamports : Int)
  | SellAttempt (mint : Pubkey) (attempt : Nat) (slippage_bps : Nat)
  | SellRetry (mint : Pubkey) (attempt : Nat) (phase : String) (error : String)
  | SellComplete (mint : Pubkey) (signature : String) (reason : String) (slippage_bps : Nat)
  | SessionClosed (mint : Pubkey)
  | SessionError (mint : Pubkey) (error : String)
deriving DecidableEq, Repr

/-- Outbound stream command `RequestExitSignal` (src/network/stream_client.rs
handle used by the executor). -/
inductive StreamCmd where
  | request_exit_signal (position_id : Nat) (slippage_bps : Option Nat)
deriving DecidableEq, Repr

/-- The engine-owned shared maps of `AppEngine` (src/app/mod.rs): market
contexts, stream states and position snapshots keyed by mint, and the
In-Flight Registry keyed by position id.  A registry entry is the queue of
payloads sent into that entry's refresh channel and not yet received. -/
structure EngineMaps where
  market_contexts : Pubkey → Option MarketContext
  stream_states : Pubkey → Option InMemoryMarketStreamState
  position_snapshots : Pubkey → Option PositionSnapshot
  in_flight : Nat → Option (List String)

/-- `apply_market_context_update` from src/app/mod.rs: on parse success the
new context is stored at the mint; on failure the error propagates and the
map is untouched (the insert is never reached). -/
def apply_market_context_update (mint : Pubkey) (market_context : Option MarketContextMsg)
    (market_contexts : Pubkey → Option MarketContext) :
    Except String (Option MarketContext × (Pubkey → Option MarketContext)) :=
  match market_context with
  | none => Except.ok (none, market_contexts)
  | some msg =>
    match market_context_from_msg msg with
    | Except.error e => Except.error e
    | Except.ok context =>
      Except.ok (some context, fun p => if p = mint then some context else market_contexts p)

/-- `upsert_market_stream_state` from src/app/mod.rs. -/
def upsert_market_stream_state (stream_states : Pubkey → Option InMemoryMarketStreamState)
    (mint : Pubkey) (market_context : Option MarketContext) (position_tokens : Option Nat) :
    (Pubkey → Option InMemoryMarketStreamState) × List AppEvent :=
  match market_context with
  | some context =>
    let replace :=
      match stream_states mint with
      | some state => decide (state.market_type_value ≠ context.market_type)
      | none => true
    let base :=
      if replace then InMemoryMarketStreamState.new context.market_type
      else (stream_states mint).getD (InMemoryMarketStreamState.new context.market_type)
    let state :=
      match position_tokens with
      | some tokens => base.set_position_tokens (some tokens)
      | none => base
    (fun p => if p = mint then some state else stream_states p,
     [AppEvent.SessionStreamState mint state])
  | none =>
    match stream_states mint with
    | none => (stream_states, [])
    | some existing =>
      let state :=
        match position_tokens with
        | some tokens => existing.set_position_tokens (some tokens)
        | none => existing
      (fun p => if p = mint then some state else stream_states p,
       [AppEvent.SessionStreamState mint state])

/-- `handle_position_closed` from src/app/mod.rs. -/
def handle_position_closed (position_id : Nat) (mint : String) (_reason : String)
    (_slot : Nat) (st : EngineMaps) : EngineMaps × List AppEvent :=
  match pubkey_from_str mint with
  | none => (st, [])
  | some mint_pubkey =>
    let should_remove :=
      match st.position_snapshots mint_pubkey with
      | some snapshot => decide (snapshot.position_id = position_id ∨ snapshot.position_id = 0)
      | none => false
    let snaps :=
      if should_remove then
        (fun p => if p = mint_pubkey then none else st.position_snapshots p)
      else st.position_snapshots
    ({ market_contexts := fun p => if p = mint_pubkey then none else st.market_contexts p,
       stream_states := fun p => if p = mint_pubkey then none else st.stream_states p,
       position_snapshots := snaps,
       in_flight := fun pid => if pid = position_id then none else st.in_flight pid },
     [AppEvent.SessionClosed mint_pubkey])

/-- Descriptor of an auto-sell executor task spawned by
`process_exit_signal_with_tx`: the data the `tokio::spawn` closure captures. -/
structure SpawnedExec where
  position_id : Nat
  mint : Pubkey
  token_program : Option String
  position_tokens : Nat
  profit_units : Int
  reason : String
  unsigned_tx_b64 : String
deriving DecidableEq, Repr

/-- The synchronous part of `process_exit_signal_with_tx` (src/app/mod.rs):
everything up to and including the single-flight check-and-insert and the
decision to spawn.  Returns the new maps, the emitted events, and the list
of executor tasks spawned (at most one). -/
def process_exit_signal_with_tx (paused : Bool) (position_id : Nat) (mint : String)
    (token_program : Option String) (position_tokens : Nat) (profit_units : Int)
    (reason : String) (market_context_msg : Option MarketContextMsg)
    (unsigned_tx_b64 : String) (st : EngineMaps) :
    EngineMaps × List AppEvent × List SpawnedExec :=
  match pubkey_from_str mint with
  | none => (st, [], [])
  | some mint_pubkey =>
    let ctx_step :=
      match apply_market_context_update mint_pubkey market_context_msg st.market_contexts with
      | Except.ok (parsed, mcs) => (parsed, mcs, ([] : List AppEvent))
      | Except.error err => (none, st.market_contexts, [AppEvent.SessionError mint_pubkey err])
    let parsed_context := ctx_step.1
    let mcs := ctx_step.2.1
    let err_events := ctx_step.2.2
    let context_for_state := parsed_context.orElse (fun _ => mcs mint_pubkey)
    let ss_step := upsert_market_stream_state st.stream_states mint_pubkey context_for_state
      (some position_tokens)
    let snapshot : PositionSnapshot :=
      ⟨position_id, token_program, position_tokens,
       parsed_context.orElse (fun _ => mcs mint_pubkey)⟩
    let st1 : EngineMaps :=
      { market_contexts := mcs,
        stream_states := ss_step.1,
        position_snapshots :=
          fun p => if p = mint_pubkey then some snapshot else st.position_snapshots p,
        in_flight := st.in_flight }
    let events := err_events ++ ss_step.2
    if paused then (st1, events, [])
    else
      match st1.in_flight position_id with
      | some queued =>
        ({ st1 with in_flight :=
            fun pid => if pid = position_id then some (queued ++ [unsigned_tx_b64])
                       else st1.in_flight pid },
         events, [])
      | none =>
        ({ st1 with in_flight :=
            fun pid => if pid = position_id then some [] else st1.in_flight pid },
         events,
         [⟨position_id, mint_pubkey, token_program, position_tokens, profit_units, reason,
           unsigned_tx_b64⟩])

/-- Outcome classification of a failed sign-and-submit attempt: the model of
an `anyhow::Error` whose chain may contain a `TxSubmitError::ConfirmTimeout`
or `TxSubmitError::TxFailed` (then `is_confirm` is true). -/
structure TxError where
  is_confirm : Bool
  message : String
deriving DecidableEq, Repr

/-- `classify_sell_retry_phase` from src/app/mod.rs. -/
def classify_sell_retry_phase (err : TxError) : String :=
  if err.is_confirm then "tx_confirm" else "tx_send"

/-- Model of Rust `str::trim`: drop leading and trailing whitespace
(structurally, so that proofs can evaluate it). -/
def str_trim (s : String) : String :=
  ⟨((s.data.dropWhile Char.isWhitespace).reverse.dropWhile Char.isWhitespace).reverse⟩

/-- One outcome of a 1500 ms `timeout(refresh_rx.recv())` cycle inside
`recv_refreshed_sell_tx`: the timeout elapsing, the channel being closed,
or a payload arriving. -/
inductive RecvEvent where
  | timeout
  | closed
  | msg (payload : String)
deriving DecidableEq, Repr

/-- `recv_refreshed_sell_tx` from src/app/mod.rs, over the sequence of
receive outcomes (an exhausted sequence behaves as the timeout firing):
whitespace-only payloads are skipped, the first non-empty trimmed payload is
returned together with the unconsumed rest. -/
def recv_refreshed_sell_tx (position_id : Nat) :
    List RecvEvent → Except String (String × List RecvEvent)
  | [] =>
    Except.error ("timed out waiting for refreshed sell tx (position_id=" ++
      toString position_id ++ ")")
  | RecvEvent.timeout :: _ =>
    Except.error ("timed out waiting for refreshed sell tx (position_id=" ++
      toString position_id ++ ")")
  | RecvEvent.closed :: _ =>
    Except.error ("sell refresh channel closed (position_id=" ++
      toString position_id ++ ")")
  | RecvEvent.msg payload :: rest =>
    let trimmed := str_trim payload
    if trimmed ≠ "" then Except.ok (trimmed, rest)
    else recv_refreshed_sell_tx position_id rest

/-- The retry loop body of `execute_auto_sell_with_refresh` (src/app/mod.rs):
`submit a tx` is the outcome of signing and submitting `tx` on attempt `a`;
`req_exit a` is whether the `request_exit_signal` stream send on attempt `a`
succeeds; `refresh` is the pending refresh-channel input.  Returns the
emitted events, the stream commands sent, and the result. -/
def autosell_loop (submit : Nat → String → Except TxError String) (req_exit : Nat → Bool)
    (mint : Pubkey) (position_id : Nat) (sell_cfg : SellConfig)
    (refresh : List RecvEvent) (unsigned_tx_b64 : String)
    (attempt : Nat) (refreshes_used : Nat) (slippage_bps : Nat) :
    List AppEvent × List StreamCmd × Except String (String × Nat) :=
  let attempt_evt := AppEvent.SellAttempt mint attempt slippage_bps
  match submit attempt unsigned_tx_b64 with
  | Except.ok signature => ([attempt_evt], [], Except.ok (signature, slippage_bps))
  | Except.error err =>
    if _h : sell_cfg.max_retries ≤ refreshes_used then
      ([attempt_evt], [],
        Except.error ("autosell failed for position_id " ++ toString position_id ++
          " after " ++ toString attempt ++ " attempts: " ++ err.message))
    else
      let retry_evt :=
        AppEvent.SellRetry mint attempt (classify_sell_retry_phase err) err.message
      let slippage2 := bumped_slippage_bps slippage_bps refreshes_used sell_cfg
      let cmd := StreamCmd.request_exit_signal position_id (some slippage2)
      if req_exit attempt then
        match recv_refreshed_sell_tx position_id refresh with
        | Except.error e => ([attempt_evt, retry_evt], [cmd], Except.error e)
        | Except.ok (new_tx, refresh2) =>
          let rest := autosell_loop submit req_exit mint position_id sell_cfg refresh2 new_tx
            (attempt + 1) (refreshes_used + 1) slippage2
          (attempt_evt :: retry_evt :: rest.1, cmd :: rest.2.1, rest.2.2)
      else
        ([attempt_evt, retry_evt], [cmd], Except.error "request sell refresh over stream")
termination_by sell_cfg.max_retries - refreshes_used
decreasing_by simp_wf; omega

/-- `execute_auto_sell_with_refresh` from src/app/mod.rs: decode the keypair
(`decode_keypair_ok` is the outcome), then run the retry loop with attempt
counter 1, no refreshes used and slippage `slippage_pad_bps`. -/
def execute_auto_sell_with_refresh (decode_keypair_ok : Bool)
    (submit : Nat → String → Except TxError String) (req_exit : Nat → Bool)
    (refresh : List RecvEvent) (mint : Pubkey) (position_id : Nat)
    (sell_cfg : SellConfig) (initial_unsigned_tx_b64 : String) :
    List AppEvent × List StreamCmd × Except String (String × Nat) :=
  if decode_keypair_ok then
    autosell_loop submit req_exit mint position_id sell_cfg refresh initial_unsigned_tx_b64
      1 0 sell_cfg.slippage_pad_bps
  else ([], [], Except.error "decode keypair")

/-- `resolve_token_program` from src/app/mod.rs: a parseable hint wins,
otherwise the outcome of the `getAccountInfo` owner lookup (`rpc_owner`). -/
def resolve_token_program (rpc_owner : Except String Pubkey)
    (token_program_hint : Option String) (_mint : Pubkey) : Except String Pubkey :=
  match token_program_hint with
  | some hint =>
    match pubkey_from_str hint with
    | some program => Except.ok program
    | none => rpc_owner
  | none => rpc_owner

/-- The spawned auto-sell task of `process_exit_signal_with_tx`
(src/app/mod.rs lines 522-609): resolve the token program, emit the session
events, run the executor, then on success clear the mint's snapshot, context
and stream state; in every case remove the In-Flight Registry entry last. -/
def auto_sell_task (rpc_owner : Except String Pubkey) (decode_keypair_ok : Bool)
    (submit : Nat → String → Except TxError String) (req_exit : Nat → Bool)
    (refresh : List RecvEvent) (spawn : SpawnedExec) (sell_cfg : SellConfig)
    (st : EngineMaps) : EngineMaps × List AppEvent × List StreamCmd :=
  let sell_reason := canonical_sell_reason spawn.reason
  match resolve_token_program rpc_owner spawn.token_program spawn.mint with
  | Except.error err =>
    ({ st with in_flight :=
        fun pid => if pid = spawn.position_id then none else st.in_flight pid },
     [AppEvent.SessionError spawn.mint err], [])
  | Except.ok token_program =>
    let pre := [AppEvent.SessionStarted spawn.mint token_program,
                AppEvent.PositionTokensUpdated spawn.mint spawn.position_tokens,
                AppEvent.SellScheduled spawn.mint sell_reason spawn.profit_units]
    let r := execute_auto_sell_with_refresh decode_keypair_ok submit req_exit refresh
      spawn.mint spawn.position_id sell_cfg spawn.unsigned_tx_b64
    match r.2.2 with
    | Except.ok (signature, slippage_bps) =>
      ({ market_contexts := fun p => if p = spawn.mint then none else st.market_contexts p,
         stream_states := fun p => if p = spawn.mint then none else st.stream_states p,
         position_snapshots :=
           fun p => if p = spawn.mint then none else st.position_snapshots p,
         in_flight := fun pid => if pid = spawn.position_id then none else st.in_flight pid },
       pre ++ r.1 ++ [AppEvent.SellComplete spawn.mint signature sell_reason slippage_bps,
                      AppEvent.SessionClosed spawn.mint],
       r.2.1)
    | Except.error err =>
      ({ st with in_flight :=
          fun pid => if pid = spawn.position_id then none else st.in_flight pid },
       pre ++ r.1 ++ [AppEvent.SessionError spawn.mint err],
       r.2.1)

/-- Descriptor of the manual-sell task spawned by `trigger_manual_sell`:
the data its `tokio::spawn` closure captures. -/
structure ManualSellSpawn where
  mint : Pubkey
  token_program_hint : Option String
  tokens : Nat
  slippage_bps : Nat
  confirm_timeout_sec : Nat
  market_context : Option MarketContext
deriving DecidableEq, Repr

/-- The synchronous part of `trigger_manual_sell` (src/app/mod.rs): snapshot
lookup and the fail-fast checks, up to the decision to spawn the one-shot
manual sell task. -/
def trigger_manual_sell (mint : Pubkey) (sell_cfg : SellConfig) (st : EngineMaps) :
    List AppEvent × Option ManualSellSpawn :=
  match st.position_snapshots mint with
  | none =>
    ([AppEvent.SessionError mint "manual sell failed: no position data for mint"], none)
  | some snapshot =>
    if snapshot.tokens = 0 then
      ([AppEvent.SessionError mint "manual sell failed: position token balance is 0"], none)
    else
      let market_context := snapshot.market_context.orElse (fun _ => st.market_contexts mint)
      ([], some ⟨mint, snapshot.token_program, snapshot.tokens, sell_cfg.slippage_pad_bps,
                 sell_cfg.confirm_timeout_sec, market_context⟩)

/-- `SellOutput` of the build-sell-transaction API (lasersell_sdk). -/
inductive SellOutput where
  | Sol
  | Usd1
deriving DecidableEq, Repr

/-- `infer_manual_sell_output` from src/app/mod.rs. -/
def infer_manual_sell_output (market_context : Option MarketContext) : SellOutput :=
  match market_context with
  | none => SellOutput.Sol
  | some context =>
    match context.market_type with
    | MarketType.MeteoraDbc =>
      if (context.meteora_dbc.map (fun ctx => ctx.quote_mint == usd1_mint)).getD false then
        SellOutput.Usd1
      else SellOutput.Sol
    | MarketType.RaydiumLaunchpad =>
      if (context.raydium_launchpad.map (fun ctx => ctx.quote_mint == usd1_mint)).getD false then
        SellOutput.Usd1
      else SellOutput.Sol
    | MarketType.RaydiumCpmm =>
      if (context.raydium_cpmm.map (fun ctx => ctx.quote_mint == usd1_mint)).getD false then
        SellOutput.Usd1
      else SellOutput.Sol
    | MarketType.PumpFun | MarketType.PumpSwap | MarketType.MeteoraDammV2 => SellOutput.Sol

/-- `market_context_to_msg` from src/market/context_to_msg.rs; `none` models
the `expect` panic on a context whose payload is missing for its market
type. -/
def market_context_to_msg (context : MarketContext) : Option MarketContextMsg :=
  match context.market_type with
  | MarketType.PumpFun =>
    some ⟨MarketTypeMsg.PumpFun, some (), none, none, none, none, none⟩
  | MarketType.PumpSwap =>
    context.pumpswap.map (fun ctx =>
      ⟨MarketTypeMsg.PumpSwap, none,
       some ⟨pubkey_to_string ctx.pool, ctx.global_config.map pubkey_to_string⟩,
       none, none, none, none⟩)
  | MarketType.MeteoraDbc =>
    context.meteora_dbc.map (fun ctx =>
      ⟨MarketTypeMsg.MeteoraDbc, none, none,
       some ⟨pubkey_to_string ctx.pool, pubkey_to_string ctx.config,
             pubkey_to_string ctx.quote_mint⟩,
       none, none, none⟩)
  | MarketType.MeteoraDammV2 =>
    context.damm_v2.map (fun ctx =>
      ⟨MarketTypeMsg.MeteoraDammV2, none, none, none,
       some ⟨pubkey_to_string ctx.pool⟩, none, none⟩)
  | MarketType.RaydiumLaunchpad =>
    context.raydium_launchpad.map (fun ctx =>
      ⟨MarketTypeMsg.RaydiumLaunchpad, none, none, none, none,
       some ⟨pubkey_to_string ctx.pool, pubkey_to_string ctx.config,
             pubkey_to_string ctx.platform, pubkey_to_string ctx.quote_mint,
             pubkey_to_string ctx.user_quote_account⟩,
       none⟩)
  | MarketType.RaydiumCpmm =>
    context.raydium_cpmm.map (fun ctx =>
      ⟨MarketTypeMsg.RaydiumCpmm, none, none, none, none, none,
       some ⟨pubkey_to_string ctx.pool, pubkey_to_string ctx.config,
             pubkey_to_string ctx.quote_mint, pubkey_to_string ctx.user_quote_account⟩⟩)

/-- `BuildSellTxRequest` of the build-sell-transaction HTTP API
(lasersell_sdk::exit_api), with the fields `build_manual_sell_request`
populates. -/
structure BuildSellTxRequest where
  mint : String
  user_pubkey : String
  amount_tokens : Nat
  slippage_bps : Option Nat
  mode : Option String
  output : Option SellOutput
  referral_id : Option String
  market_context : Option MarketContextMsg
deriving DecidableEq, Repr

/-- `build_manual_sell_request` from src/app/mod.rs: rejects a zero amount
locally before any request is built. -/
def build_manual_sell_request (mint : Pubkey) (wallet_pubkey : Pubkey)
    (amount_tokens : Nat) (slippage_bps : Nat) (market_context : Option MarketContext) :
    Except String BuildSellTxRequest :=
  if amount_tokens = 0 then
    Except.error "manual sell failed: amount_tokens must be > 0"
  else
    Except.ok
      { mint := pubkey_to_string mint,
        user_pubkey := pubkey_to_string wallet_pubkey,
        amount_tokens := amount_tokens,
        slippage_bps := some slippage_bps,
        mode := none,
        output := some (infer_manual_sell_output market_context),
        referral_id := none,
        market_context := market_context.bind market_context_to_msg }

/-- An empty engine state, used to instantiate theorems at concrete inputs. -/
def empty_engine_maps : EngineMaps where
  market_contexts := fun _ => none
  stream_states := fun _ => none
  position_snapshots := fun _ => none
  in_flight := fun _ => none

/-- The sequence of slippage values across the attempts of one auto-sell
execution: attempt `n + 1` uses `slippage_seq cfg n` (attempt 1 uses the
pad; the bump after attempt `n + 1` uses `refreshes_used = n`). -/
def slippage_seq (cfg : SellConfig) : Nat → Nat
  | 0 => cfg.slippage_pad_bps
  | n + 1 => bumped_slippage_bps (slippage_seq cfg n) n cfg

/-- The slippage values carried by the `SellAttempt` notifications of an
event trace, in order. -/
def attempt_slippages : List AppEvent → List Nat
  | [] => []
  | AppEvent.SellAttempt _ _ s :: rest => s :: attempt_slippages rest
  | _ :: rest => attempt_slippages rest

/-- Claim C7 (reason canonicalization): `canonical_sell_reason` maps each of
"target", "profit", "target_profit" to "target"; "stop_loss" to "stop_loss";
each of "timeout", "deadline_timeout", "deadline" to "timeout"; each of
"manual", "manual_sell" to "manual"; and every other string to itself
unchanged. -/
theorem canonical_sell_reason_cases :
    canonical_sell_reason "target" = "target" ∧
    canonical_sell_reason "profit" = "target" ∧
    canonical_sell_reason "target_profit" = "target" ∧
    canonical_sell_reason "stop_loss" = "stop_loss" ∧
    canonical_sell_reason "timeout" = "timeout" ∧
    canonical_sell_reason "deadline_timeout" = "timeout" ∧
    canonical_sell_reason "deadline" = "timeout" ∧
    canonical_sell_reason "manual" = "manual" ∧
    canonical_sell_reason "manual_sell" = "manual" ∧
    canonical_sell_reason "weird_reason" = "weird_reason" ∧
    ∀ reason : String,
      reason ∉ ["target", "profit", "target_profit", "stop_loss", "timeout",
        "deadline_timeout", "deadline", "manual", "manual_sell"] →
      canonical_sell_reason reason = reason := by
  refine ⟨by decide, by decide, by decide, by decide, by decide, by decide, by decide,
    by decide, by decide, by decide, ?_⟩
  intro reason h
  simp only [List.mem_cons, List.not_mem_nil, or_false, not_or] at h
  obtain ⟨h1, h2, h3, h4, h5, h6, h7, h8, h9⟩ := h
  simp [canonical_sell_reason, h1, h2, h3, h4, h5, h6, h7, h8, h9]

/-- Witness for C7: the pass-through case at a concrete fresh string. -/
theorem canonical_sell_reason_cases_witness :
    canonical_sell_reason "moon" = "moon" :=
  canonical_sell_reason_cases.2.2.2.2.2.2.2.2.2.2 "moon" (by decide)

/-- Claim C8 (manual-sell fail-fast): a manual sell request for a mint whose
snapshot is missing or whose token count is zero emits exactly one
session-error notification and spawns no task (hence issues no HTTP
build-sell-transaction request); independently, a zero token amount is
rejected locally by `build_manual_sell_request` before any request value is
built. -/
theorem manual_sell_fail_fast (mint : Pubkey) (sell_cfg : SellConfig) (st : EngineMaps)
    (hbad : st.position_snapshots mint = none ∨
      ∃ snapshot, st.position_snapshots mint = some snapshot ∧ snapshot.tokens = 0) :
    (∃ err, (trigger_manual_sell mint sell_cfg st).1 = [AppEvent.SessionError mint err]) ∧
    (trigger_manual_sell mint sell_cfg st).2 = none ∧
    ∀ wallet_pubkey slippage_bps market_context,
      build_manual_sell_request mint wallet_pubkey 0 slippage_bps market_context =
        Except.error "manual sell failed: amount_tokens must be > 0" := by
  refine ⟨?_, ?_, fun _ _ _ => rfl⟩ <;>
  · rcases hbad with hnone | ⟨snapshot, hsnap, htok⟩
    · simp [trigger_manual_sell, hnone]
    · simp [trigger_manual_sell, hsnap, htok]

/-- Witness for C8 at a concrete state with a zero-token snapshot. -/
theorem manual_sell_fail_fast_witness :
    (∃ err, (trigger_manual_sell 5 ⟨2000, 20, 40, 2500, 25, 2⟩
      { market_contexts := fun _ => none, stream_states := fun _ => none,
        position_snapshots := fun p => if p = 5 then some ⟨9, none, 0, none⟩ else none,
        in_flight := fun _ => none }).1 = [AppEvent.SessionError 5 err]) ∧
    (trigger_manual_sell 5 ⟨2000, 20, 40, 2500, 25, 2⟩
      { market_contexts := fun _ => none, stream_states := fun _ => none,
        position_snapshots := fun p => if p = 5 then some ⟨9, none, 0, none⟩ else none,
        in_flight := fun _ => none }).2 = none ∧
    ∀ wallet_pubkey slippage_bps market_context,
      build_manual_sell_request 5 wallet_pubkey 0 slippage_bps market_context =
        Except.error "manual sell failed: amount_tokens must be > 0" :=
  manual_sell_fail_fast 5 ⟨2000, 20, 40, 2500, 25, 2⟩ _
    (Or.inr ⟨⟨9, none, 0, none⟩, by simp, rfl⟩)

/-- Claim C9 (market-context update atomicity): for every mint and
market-context message handled by `process_exit_signal_with_tx`, if parsing
the message fails then a per-mint session error carrying the parse error is
emitted and the mint's previously stored market context is left unchanged
(the whole context map is unchanged); the new context is stored at the mint
exactly when parsing succeeds. -/
theorem market_context_update_atomic (paused : Bool) (position_id : Nat) (mint : String)
    (mint_pubkey : Pubkey) (token_program : Option String) (position_tokens : Nat)
    (profit_units : Int) (reason : String) (msg : MarketContextMsg)
    (unsigned_tx_b64 : String) (st : EngineMaps)
    (hparse : pubkey_from_str mint = some mint_pubkey) :
    (∀ e, market_context_from_msg msg = Except.error e →
      (process_exit_signal_with_tx paused position_id mint token_program position_tokens
        profit_units reason (some msg) unsigned_tx_b64 st).1.market_contexts =
          st.market_contexts ∧
      AppEvent.SessionError mint_pubkey e ∈
        (process_exit_signal_with_tx paused position_id mint token_program position_tokens
          profit_units reason (some msg) unsigned_tx_b64 st).2.1) ∧
    (∀ context, market_context_from_msg msg = Except.ok context →
      (process_exit_signal_with_tx paused position_id mint token_program position_tokens
        profit_units reason (some msg) unsigned_tx_b64 st).1.market_contexts mint_pubkey =
          some context) := by
  constructor
  · intro e he
    simp only [process_exit_signal_with_tx, hparse, apply_market_context_update, he]
    constructor
    · by_cases hp : paused <;> simp only [hp] <;> first
        | rfl
        | (simp only [if_false, Bool.false_eq_true]; split <;> rfl)
    · by_cases hp : paused <;> simp [hp] <;> split <;> simp
  · intro context hc
    simp only [process_exit_signal_with_tx, hparse, apply_market_context_update, hc]
    by_cases hp : paused <;> simp [hp] <;> split <;> simp

/-- Witness for C9: a MeteoraDbc message with a missing payload fails to
parse, the context map stays empty and the session error is emitted. -/
theorem market_context_update_atomic_witness :
    (process_exit_signal_with_tx false 3 "7" none 10 0 "target"
      (some ⟨MarketTypeMsg.MeteoraDbc, none, none, none, none, none, none⟩) "tx"
      empty_engine_maps).1.market_contexts = empty_engine_maps.market_contexts ∧
    AppEvent.SessionError 7 "meteora_dbc context missing" ∈
      (process_exit_signal_with_tx false 3 "7" none 10 0 "target"
        (some ⟨MarketTypeMsg.MeteoraDbc, none, none, none, none, none, none⟩) "tx"
        empty_engine_maps).2.1 :=
  (market_context_update_atomic false 3 "7" 7 none 10 0 "target"
    ⟨MarketTypeMsg.MeteoraDbc, none, none, none, none, none, none⟩ "tx"
    empty_engine_maps (by decide)).1 "meteora_dbc context missing" rfl

/-- Claim C1 (single-flight): when an `ExitSignalWithTx` for a position id
that already has an In-Flight Registry entry is handled unpaused, no
executor task is spawned, the entry is not replaced — the event's
`unsigned_tx_b64` is only appended to the existing entry's refresh channel —
and entries of every other position id are untouched. -/
theorem single_flight (position_id : Nat) (mint : String) (mint_pubkey : Pubkey)
    (token_program : Option String) (position_tokens : Nat) (profit_units : Int)
    (reason : String) (market_context_msg : Option MarketContextMsg)
    (unsigned_tx_b64 : String) (st : EngineMaps) (queued : List String)
    (hparse : pubkey_from_str mint = some mint_pubkey)
    (hreg : st.in_flight position_id = some queued) :
    (process_exit_signal_with_tx false position_id mint token_program position_tokens
      profit_units reason market_context_msg unsigned_tx_b64 st).2.2 = [] ∧
    (process_exit_signal_with_tx false position_id mint token_program position_tokens
      profit_units reason market_context_msg unsigned_tx_b64 st).1.in_flight position_id =
      some (queued ++ [unsigned_tx_b64]) ∧
    ∀ pid, pid ≠ position_id →
      (process_exit_signal_with_tx false position_id mint token_program position_tokens
        profit_units reason market_context_msg unsigned_tx_b64 st).1.in_flight pid =
        st.in_flight pid := by
  simp only [process_exit_signal_with_tx, hparse]
  cases happly : apply_market_context_update mint_pubkey market_context_msg st.market_contexts with
  | error e =>
    simp only [happly]
    refine ⟨by simp [hreg], by simp [hreg], fun pid hne => by simp [hreg, hne]⟩
  | ok v =>
    obtain ⟨parsed, mcs⟩ := v
    simp only [happly]
    refine ⟨by simp [hreg], by simp [hreg], fun pid hne => by simp [hreg, hne]⟩

/-- Witness for C1 at a concrete state whose registry holds an entry for
position id 7 with one queued payload. -/
theorem single_flight_witness :
    (process_exit_signal_with_tx false 7 "5" none 10 0 "target" none "txB"
      { empty_engine_maps with
        in_flight := fun pid => if pid = 7 then some ["txA"] else none }).2.2 = [] ∧
    (process_exit_signal_with_tx false 7 "5" none 10 0 "target" none "txB"
      { empty_engine_maps with
        in_flight := fun pid => if pid = 7 then some ["txA"] else none }).1.in_flight 7 =
      some (["txA"] ++ ["txB"]) ∧
    ∀ pid, pid ≠ 7 →
      (process_exit_signal_with_tx false 7 "5" none 10 0 "target" none "txB"
        { empty_engine_maps with
          in_flight := fun pid => if pid = 7 then some ["txA"] else none }).1.in_flight pid =
        (fun pid => if pid = 7 then some ["txA"] else none) pid :=
  single_flight 7 "5" 5 none 10 0 "target" none "txB"
    { empty_engine_maps with in_flight := fun pid => if pid = 7 then some ["txA"] else none }
    ["txA"] (by decide) (by simp)
/-- Every event emitted by `upsert_market_stream_state` is a
`SessionStreamState` notification for the upserted mint. -/
theorem upsert_market_stream_state_events (ss : Pubkey → Option InMemoryMarketStreamState)
    (mint : Pubkey) (mc : Option MarketContext) (pt : Option Nat) {e : AppEvent}
    (he : e ∈ (upsert_market_stream_state ss mint mc pt).2) :
    ∃ state, e = AppEvent.SessionStreamState mint state := by
  unfold upsert_market_stream_state at he
  rcases mc with _ | ctx
  · rcases h : ss mint with _ | ex
    · rw [h] at he; simp at he
    · rw [h] at he; simp at he; exact ⟨_, he⟩
  · simp at he; exact ⟨_, he⟩

/-- Claim C2 (pause gate): an `ExitSignalWithTx` with a parseable mint
handled while paused updates the market-context, stream-state and snapshot
maps exactly as the unpaused handler would, but stops there: the In-Flight
Registry is unchanged (so empty if it was empty), no executor task is
spawned, and no `SellScheduled` or `SellAttempt` notification is emitted. -/
theorem pause_gate (position_id : Nat) (mint : String) (mint_pubkey : Pubkey)
    (token_program : Option String) (position_tokens : Nat) (profit_units : Int)
    (reason : String) (market_context_msg : Option MarketContextMsg)
    (unsigned_tx_b64 : String) (st : EngineMaps)
    (hparse : pubkey_from_str mint = some mint_pubkey) :
    (process_exit_signal_with_tx true position_id mint token_program position_tokens
      profit_units reason market_context_msg unsigned_tx_b64 st).1.market_contexts =
    (process_exit_signal_with_tx false position_id mint token_program position_tokens
      profit_units reason market_context_msg unsigned_tx_b64 st).1.market_contexts ∧
    (process_exit_signal_with_tx true position_id mint token_program position_tokens
      profit_units reason market_context_msg unsigned_tx_b64 st).1.stream_states =
    (process_exit_signal_with_tx false position_id mint token_program position_tokens
      profit_units reason market_context_msg unsigned_tx_b64 st).1.stream_states ∧
    (process_exit_signal_with_tx true position_id mint token_program position_tokens
      profit_units reason market_context_msg unsigned_tx_b64 st).1.position_snapshots =
    (process_exit_signal_with_tx false position_id mint token_program position_tokens
      profit_units reason market_context_msg unsigned_tx_b64 st).1.position_snapshots ∧
    (process_exit_signal_with_tx true position_id mint token_program position_tokens
      profit_units reason market_context_msg unsigned_tx_b64 st).1.in_flight =
      st.in_flight ∧
    (process_exit_signal_with_tx true position_id mint token_program position_tokens
      profit_units reason market_context_msg unsigned_tx_b64 st).2.2 = [] ∧
    ∀ e ∈ (process_exit_signal_with_tx true position_id mint token_program position_tokens
        profit_units reason market_context_msg unsigned_tx_b64 st).2.1,
      (∀ m r p, e ≠ AppEvent.SellScheduled m r p) ∧
      (∀ m a s, e ≠ AppEvent.SellAttempt m a s) := by
  have hmem : ∀ e ∈ (process_exit_signal_with_tx true position_id mint token_program
      position_tokens profit_units reason market_context_msg unsigned_tx_b64 st).2.1,
      (∀ m r p, e ≠ AppEvent.SellScheduled m r p) ∧
      (∀ m a s, e ≠ AppEvent.SellAttempt m a s) := by
    intro e he
    simp only [process_exit_signal_with_tx, hparse] at he
    cases happly : apply_market_context_update mint_pubkey market_context_msg
      st.market_contexts with
    | error err =>
      simp [happly, List.mem_append] at he
      rcases he with rfl | he
      · exact ⟨fun m r p h => AppEvent.noConfusion h, fun m a s h => AppEvent.noConfusion h⟩
      · obtain ⟨state, rfl⟩ := upsert_market_stream_state_events _ _ _ _ he
        exact ⟨fun m r p h => AppEvent.noConfusion h, fun m a s h => AppEvent.noConfusion h⟩
    | ok v =>
      obtain ⟨parsed, mcs⟩ := v
      simp [happly, List.mem_append] at he
      obtain ⟨state, rfl⟩ := upsert_market_stream_state_events _ _ _ _ he
      exact ⟨fun m r p h => AppEvent.noConfusion h, fun m a s h => AppEvent.noConfusion h⟩
  refine ⟨?_, ?_, ?_, ?_, ?_, hmem⟩ <;>
  · simp only [process_exit_signal_with_tx, hparse]
    cases happly : apply_market_context_update mint_pubkey market_context_msg
      st.market_contexts with
    | error err =>
      cases hin : st.in_flight position_id <;> simp [happly, hin]
    | ok v =>
      obtain ⟨parsed, mcs⟩ := v
      cases hin : st.in_flight position_id <;> simp [happly, hin]

/-- Witness for C2 at a concrete paused exit signal against the empty
state. -/
theorem pause_gate_witness :
    (process_exit_signal_with_tx true 7 "5" none 10 0 "target" none "txA"
      empty_engine_maps).1.market_contexts =
    (process_exit_signal_with_tx false 7 "5" none 10 0 "target" none "txA"
      empty_engine_maps).1.market_contexts ∧
    (process_exit_signal_with_tx true 7 "5" none 10 0 "target" none "txA"
      empty_engine_maps).1.stream_states =
    (process_exit_signal_with_tx false 7 "5" none 10 0 "target" none "txA"
      empty_engine_maps).1.stream_states ∧
    (process_exit_signal_with_tx true 7 "5" none 10 0 "target" none "txA"
      empty_engine_maps).1.position_snapshots =
    (process_exit_signal_with_tx false 7 "5" none 10 0 "target" none "txA"
      empty_engine_maps).1.position_snapshots ∧
    (process_exit_signal_with_tx true 7 "5" none 10 0 "target" none "txA"
      empty_engine_maps).1.in_flight = empty_engine_maps.in_flight ∧
    (process_exit_signal_with_tx true 7 "5" none 10 0 "target" none "txA"
      empty_engine_maps).2.2 = [] ∧
    ∀ e ∈ (process_exit_signal_with_tx true 7 "5" none 10 0 "target" none "txA"
        empty_engine_maps).2.1,
      (∀ m r p, e ≠ AppEvent.SellScheduled m r p) ∧
      (∀ m a s, e ≠ AppEvent.SellAttempt m a s) :=
  pause_gate 7 "5" 5 none 10 0 "target" none "txA" empty_engine_maps (by decide)
/-- Claim C6 (PositionClosed handling): for a `PositionClosed` event with a
parseable mint, the snapshot is removed exactly when one exists whose stored
`position_id` equals the event's or is the sentinel 0; regardless, the
mint's market context and stream state are cleared, the In-Flight Registry
entry for the event's position id is removed (other mints and position ids
untouched), and a session-closed notification is emitted. -/
theorem position_closed_spec (position_id : Nat) (mint : String) (mint_pubkey : Pubkey)
    (reason : String) (slot : Nat) (st : EngineMaps)
    (hparse : pubkey_from_str mint = some mint_pubkey) :
    (∀ snapshot, st.position_snapshots mint_pubkey = some snapshot →
      (handle_position_closed position_id mint reason slot st).1.position_snapshots
        mint_pubkey =
        if snapshot.position_id = position_id ∨ snapshot.position_id = 0 then none
        else some snapshot) ∧
    (st.position_snapshots mint_pubkey = none →
      (handle_position_closed position_id mint reason slot st).1.position_snapshots
        mint_pubkey = none) ∧
    (∀ p, p ≠ mint_pubkey →
      (handle_position_closed position_id mint reason slot st).1.position_snapshots p =
        st.position_snapshots p) ∧
    (handle_position_closed position_id mint reason slot st).1.market_contexts
      mint_pubkey = none ∧
    (handle_position_closed position_id mint reason slot st).1.stream_states
      mint_pubkey = none ∧
    (∀ p, p ≠ mint_pubkey →
      (handle_position_closed position_id mint reason slot st).1.market_contexts p =
        st.market_contexts p ∧
      (handle_position_closed position_id mint reason slot st).1.stream_states p =
        st.stream_states p) ∧
    (handle_position_closed position_id mint reason slot st).1.in_flight position_id =
      none ∧
    (∀ pid, pid ≠ position_id →
      (handle_position_closed position_id mint reason slot st).1.in_flight pid =
        st.in_flight pid) ∧
    (handle_position_closed position_id mint reason slot st).2 =
      [AppEvent.SessionClosed mint_pubkey] := by
  refine ⟨?_, ?_, ?_, ?_, ?_, ?_, ?_, ?_, ?_⟩
  · intro snapshot hsnap
    by_cases hid : snapshot.position_id = position_id ∨ snapshot.position_id = 0 <;>
      simp [handle_position_closed, hparse, hsnap, hid]
  · intro hnone
    simp only [handle_position_closed, hparse, hnone]
    split <;> simp [hnone]
  · intro p hp
    simp only [handle_position_closed, hparse]
    split <;> simp [hp]
  · simp [handle_position_closed, hparse]
  · simp [handle_position_closed, hparse]
  · intro p hp
    simp [handle_position_closed, hparse, hp]
  · simp [handle_position_closed, hparse]
  · intro pid hpid
    simp [handle_position_closed, hparse, hpid]
  · simp [handle_position_closed, hparse]

/-- Witness for C6 at a concrete state holding a sentinel-id snapshot for
mint 5, a market context, a stream state, and an in-flight entry for
position 9. -/
theorem position_closed_spec_witness :
    ((handle_position_closed 9 "5" "target" 100
      { market_contexts := fun p => if p = 5 then some MarketContext.pumpfun else none,
        stream_states :=
          fun p => if p = 5 then some (InMemoryMarketStreamState.new MarketType.PumpFun)
                   else none,
        position_snapshots := fun p => if p = 5 then some ⟨0, none, 3, none⟩ else none,
        in_flight := fun pid => if pid = 9 then some [] else none }).1.position_snapshots 5 =
      if (0 : Nat) = 9 ∨ (0 : Nat) = 0 then none else some ⟨0, none, 3, none⟩) ∧
    ((handle_position_closed 9 "5" "target" 100
      { market_contexts := fun p => if p = 5 then some MarketContext.pumpfun else none,
        stream_states :=
          fun p => if p = 5 then some (InMemoryMarketStreamState.new MarketType.PumpFun)
                   else none,
        position_snapshots := fun p => if p = 5 then some ⟨0, none, 3, none⟩ else none,
        in_flight := fun pid => if pid = 9 then some [] else none }).1.market_contexts 5 =
      none) ∧
    ((handle_position_closed 9 "5" "target" 100
      { market_contexts := fun p => if p = 5 then some MarketContext.pumpfun else none,
        stream_states :=
          fun p => if p = 5 then some (InMemoryMarketStreamState.new MarketType.PumpFun)
                   else none,
        position_snapshots := fun p => if p = 5 then some ⟨0, none, 3, none⟩ else none,
        in_flight := fun pid => if pid = 9 then some [] else none }).1.in_flight 9 = none) ∧
    ((handle_position_closed 9 "5" "target" 100
      { market_contexts := fun p => if p = 5 then some MarketContext.pumpfun else none,
        stream_states :=
          fun p => if p = 5 then some (InMemoryMarketStreamState.new MarketType.PumpFun)
                   else none,
        position_snapshots := fun p => if p = 5 then some ⟨0, none, 3, none⟩ else none,
        in_flight := fun pid => if pid = 9 then some [] else none }).2 =
      [AppEvent.SessionClosed 5]) := by
  have h := position_closed_spec 9 "5" 5 "target" 100
    { market_contexts := fun p => if p = 5 then some MarketContext.pumpfun else none,
      stream_states :=
        fun p => if p = 5 then some (InMemoryMarketStreamState.new MarketType.PumpFun)
                 else none,
      position_snapshots := fun p => if p = 5 then some ⟨0, none, 3, none⟩ else none,
      in_flight := fun pid => if pid = 9 then some [] else none } (by decide)
  exact ⟨h.1 ⟨0, none, 3, none⟩ (by simp), h.2.2.2.1, h.2.2.2.2.2.2.1, h.2.2.2.2.2.2.2.2⟩
/-- Trace shape of the retry loop: starting at slippage `s` (within the cap,
cap within u16 range), the `SellAttempt` slippages form `s` followed by a
non-decreasing tail that never exceeds the cap. -/
theorem autosell_loop_slippage_chain (submit : Nat → String → Except TxError String)
    (req_exit : Nat → Bool) (mint : Pubkey) (pid : Nat) (cfg : SellConfig)
    (hmax : cfg.slippage_max_bps ≤ 65535) :
    ∀ (n : Nat) (refresh : List RecvEvent) (tx : String) (a k s : Nat),
      cfg.max_retries - k ≤ n → s ≤ cfg.slippage_max_bps →
      ∃ rest,
        attempt_slippages (autosell_loop submit req_exit mint pid cfg refresh tx a k s).1 =
          s :: rest ∧
        List.Chain (· ≤ ·) s rest ∧
        ∀ x ∈ rest, x ≤ cfg.slippage_max_bps := by
  intro n
  induction n with
  | zero =>
    intro refresh tx a k s hn hs
    rw [autosell_loop.eq_def]
    cases hsub : submit a tx with
    | ok sig =>
      exact ⟨[], by simp [hsub, attempt_slippages], List.Chain.nil, by simp⟩
    | error err =>
      have hk : cfg.max_retries ≤ k := by omega
      refine ⟨[], ?_, List.Chain.nil, by simp⟩
      simp [hsub, hk, attempt_slippages]
  | succ n ih =>
    intro refresh tx a k s hn hs
    rw [autosell_loop.eq_def]
    cases hsub : submit a tx with
    | ok sig =>
      exact ⟨[], by simp [hsub, attempt_slippages], List.Chain.nil, by simp⟩
    | error err =>
      by_cases hk : cfg.max_retries ≤ k
      · refine ⟨[], ?_, List.Chain.nil, by simp⟩
        simp [hsub, hk, attempt_slippages]
      · cases hreq : req_exit a with
        | false =>
          refine ⟨[], ?_, List.Chain.nil, by simp⟩
          simp [hsub, hk, hreq, attempt_slippages]
        | true =>
          cases hrecv : recv_refreshed_sell_tx pid refresh with
          | error e =>
            refine ⟨[], ?_, List.Chain.nil, by simp⟩
            simp [hsub, hk, hreq, hrecv, attempt_slippages]
          | ok v =>
            obtain ⟨tx2, refresh2⟩ := v
            have hs2 : bumped_slippage_bps s k cfg ≤ cfg.slippage_max_bps := by
              simp only [bumped_slippage_bps]
              omega
            have hss2 : s ≤ bumped_slippage_bps s k cfg := by
              simp only [bumped_slippage_bps]
              omega
            obtain ⟨rest2, hrest2, hchain2, hbound2⟩ :=
              ih refresh2 tx2 (a + 1) (k + 1) (bumped_slippage_bps s k cfg) (by omega) hs2
            refine ⟨bumped_slippage_bps s k cfg :: rest2, ?_, ?_, ?_⟩
            · simp [hsub, hk, hreq, hrecv, attempt_slippages, hrest2]
            · exact List.Chain.cons hss2 hchain2
            · intro x hx
              rcases List.mem_cons.mp hx with rfl | hx
              · exact hs2
              · exact hbound2 x hx

/-- Claim C3 (monotonic capped slippage): with `slippage_pad_bps = 2000`,
`slippage_retry_bump_bps_first = 20`, `slippage_retry_bump_bps_next = 40`
and `slippage_max_bps = 2500`, the sequence of slippage values used across
the attempts of one auto-sell execution is non-decreasing and never exceeds
2500, for any number of retries: both for the abstract bump sequence
`slippage_seq` and for the `SellAttempt` slippages actually emitted by
`execute_auto_sell_with_refresh` under arbitrary oracles. -/
theorem monotone_capped_slippage (cfg : SellConfig)
    (hpad : cfg.slippage_pad_bps = 2000)
    (hfirst : cfg.slippage_retry_bump_bps_first = 20)
    (hnext : cfg.slippage_retry_bump_bps_next = 40)
    (hmax : cfg.slippage_max_bps = 2500) :
    (∀ n, slippage_seq cfg n ≤ slippage_seq cfg (n + 1) ∧ slippage_seq cfg n ≤ 2500) ∧
    ∀ (submit : Nat → String → Except TxError String) (req_exit : Nat → Bool)
      (refresh : List RecvEvent) (mint : Pubkey) (pid : Nat) (tx : String),
      List.Chain' (· ≤ ·) (attempt_slippages
        (execute_auto_sell_with_refresh true submit req_exit refresh mint pid cfg tx).1) ∧
      ∀ x ∈ attempt_slippages
          (execute_auto_sell_with_refresh true submit req_exit refresh mint pid cfg tx).1,
        x ≤ 2500 := by
  have hbound : ∀ n, slippage_seq cfg n ≤ 2500 := by
    intro n
    induction n with
    | zero => simp [slippage_seq, hpad]
    | succ n ih =>
      simp only [slippage_seq, bumped_slippage_bps, hfirst, hnext, hmax]
      omega
  constructor
  · intro n
    refine ⟨?_, hbound n⟩
    have h := hbound n
    simp only [slippage_seq, bumped_slippage_bps, hfirst, hnext, hmax]
    omega
  · intro submit req_exit refresh mint pid tx
    obtain ⟨rest, hrest, hchain, hb⟩ :=
      autosell_loop_slippage_chain submit req_exit mint pid cfg (by omega)
        (cfg.max_retries - 0) refresh tx 1 0 cfg.slippage_pad_bps (by omega) (by omega)
    have hexec : (execute_auto_sell_with_refresh true submit req_exit refresh mint pid
        cfg tx) = autosell_loop submit req_exit mint pid cfg refresh tx 1 0
          cfg.slippage_pad_bps := by
      simp [execute_auto_sell_with_refresh]
    rw [hexec, hrest]
    constructor
    · exact hchain
    · intro x hx
      rcases List.mem_cons.mp hx with rfl | hx
      · omega
      · have := hb x hx
        omega

/-- Witness for C3 at the default config, the bump-index 3 step of the
abstract sequence, and a concrete always-failing submission oracle. -/
theorem monotone_capped_slippage_witness :
    (slippage_seq ⟨2000, 20, 40, 2500, 25, 2⟩ 3 ≤ slippage_seq ⟨2000, 20, 40, 2500, 25, 2⟩ 4 ∧
      slippage_seq ⟨2000, 20, 40, 2500, 25, 2⟩ 3 ≤ 2500) ∧
    (List.Chain' (· ≤ ·) (attempt_slippages
      (execute_auto_sell_with_refresh true (fun _ _ => Except.error ⟨false, "boom"⟩)
        (fun _ => true) [RecvEvent.msg "t1", RecvEvent.msg "t2"] 5 9
        ⟨2000, 20, 40, 2500, 25, 2⟩ "tx0").1) ∧
    ∀ x ∈ attempt_slippages
        (execute_auto_sell_with_refresh true (fun _ _ => Except.error ⟨false, "boom"⟩)
          (fun _ => true) [RecvEvent.msg "t1", RecvEvent.msg "t2"] 5 9
          ⟨2000, 20, 40, 2500, 25, 2⟩ "tx0").1,
      x ≤ 2500) :=
  ⟨(monotone_capped_slippage ⟨2000, 20, 40, 2500, 25, 2⟩ rfl rfl rfl rfl).1 3,
   (monotone_capped_slippage ⟨2000, 20, 40, 2500, 25, 2⟩ rfl rfl rfl rfl).2
     (fun _ _ => Except.error ⟨false, "boom"⟩) (fun _ => true)
     [RecvEvent.msg "t1", RecvEvent.msg "t2"] 5 9 "tx0"⟩
/-- Evaluation of a full exhaustion run of the retry loop: `max_retries = 2`,
every attempt failing, two usable refreshed transactions supplied. -/
theorem autosell_loop_exhaust_run (submit : Nat → String → Except TxError String)
    (mint : Pubkey) (pid : Nat) (cfg : SellConfig) (err : Nat → TxError)
    (t1 t2 tx : String) (s : Nat)
    (hmr : cfg.max_retries = 2) (hsub : ∀ a tx, submit a tx = Except.error (err a))
    (ht1 : str_trim t1 ≠ "") (ht2 : str_trim t2 ≠ "") :
    autosell_loop submit (fun _ => true) mint pid cfg
      [RecvEvent.msg t1, RecvEvent.msg t2] tx 1 0 s =
      ([AppEvent.SellAttempt mint 1 s,
        AppEvent.SellRetry mint 1 (classify_sell_retry_phase (err 1)) (err 1).message,
        AppEvent.SellAttempt mint 2 (bumped_slippage_bps s 0 cfg),
        AppEvent.SellRetry mint 2 (classify_sell_retry_phase (err 2)) (err 2).message,
        AppEvent.SellAttempt mint 3 (bumped_slippage_bps (bumped_slippage_bps s 0 cfg) 1 cfg)],
       [StreamCmd.request_exit_signal pid (some (bumped_slippage_bps s 0 cfg)),
        StreamCmd.request_exit_signal pid
          (some (bumped_slippage_bps (bumped_slippage_bps s 0 cfg) 1 cfg))],
       Except.error ("autosell failed for position_id " ++ toString pid ++
         " after 3 attempts: " ++ (err 3).message)) := by
  rw [autosell_loop.eq_def]
  simp [hsub, hmr, recv_refreshed_sell_tx, ht1, ht2]
  rw [autosell_loop.eq_def]
  simp [hsub, hmr, recv_refreshed_sell_tx, ht1, ht2]
  rw [autosell_loop.eq_def]
  simp [hsub, hmr, recv_refreshed_sell_tx, ht1, ht2]
  rw [show (toString (3:Nat)) = "3" from rfl,
    String.append_assoc ("autosell failed for position_id " ++ toString pid) " after " "3",
    show (" after " ++ "3" : String) = " after 3" from rfl,
    String.append_assoc ("autosell failed for position_id " ++ toString pid)
      " after 3" " attempts: ",
    show (" after 3" ++ " attempts: " : String) = " after 3 attempts: " from rfl]

/-- Claim C4 (exhaustion): when an attempt fails with the refreshes-used
count already at `max_retries`, the retry loop terminates with an error
naming the position id, the attempt count and the last error; at task level
with `max_retries = 2` and every attempt failing, the run ends after 3 total
attempts with a session error naming "after 3 attempts" and the In-Flight
Registry entry is removed. -/
theorem autosell_exhaustion :
    (∀ (submit : Nat → String → Except TxError String) (req_exit : Nat → Bool)
        (mint : Pubkey) (pid : Nat) (cfg : SellConfig) (refresh : List RecvEvent)
        (tx : String) (a k s : Nat) (err : TxError),
      submit a tx = Except.error err → cfg.max_retries ≤ k →
      autosell_loop submit req_exit mint pid cfg refresh tx a k s =
        ([AppEvent.SellAttempt mint a s], [],
         Except.error ("autosell failed for position_id " ++ toString pid ++
           " after " ++ toString a ++ " attempts: " ++ err.message))) ∧
    ∀ (tp : Pubkey) (spawn : SpawnedExec) (cfg : SellConfig) (st : EngineMaps)
      (submit : Nat → String → Except TxError String) (err : Nat → TxError)
      (t1 t2 : String),
      cfg.max_retries = 2 → (∀ a tx, submit a tx = Except.error (err a)) →
      str_trim t1 ≠ "" → str_trim t2 ≠ "" → spawn.token_program = none →
      (auto_sell_task (Except.ok tp) true submit (fun _ => true)
        [RecvEvent.msg t1, RecvEvent.msg t2] spawn cfg st).1.in_flight
          spawn.position_id = none ∧
      (∀ pid2, pid2 ≠ spawn.position_id →
        (auto_sell_task (Except.ok tp) true submit (fun _ => true)
          [RecvEvent.msg t1, RecvEvent.msg t2] spawn cfg st).1.in_flight pid2 =
          st.in_flight pid2) ∧
      (auto_sell_task (Except.ok tp) true submit (fun _ => true)
        [RecvEvent.msg t1, RecvEvent.msg t2] spawn cfg st).2.1 =
        [AppEvent.SessionStarted spawn.mint tp,
         AppEvent.PositionTokensUpdated spawn.mint spawn.position_tokens,
         AppEvent.SellScheduled spawn.mint (canonical_sell_reason spawn.reason)
           spawn.profit_units,
         AppEvent.SellAttempt spawn.mint 1 cfg.slippage_pad_bps,
         AppEvent.SellRetry spawn.mint 1 (classify_sell_retry_phase (err 1)) (err 1).message,
         AppEvent.SellAttempt spawn.mint 2 (bumped_slippage_bps cfg.slippage_pad_bps 0 cfg),
         AppEvent.SellRetry spawn.mint 2 (classify_sell_retry_phase (err 2)) (err 2).message,
         AppEvent.SellAttempt spawn.mint 3
           (bumped_slippage_bps (bumped_slippage_bps cfg.slippage_pad_bps 0 cfg) 1 cfg),
         AppEvent.SessionError spawn.mint ("autosell failed for position_id " ++
           toString spawn.position_id ++ " after 3 attempts: " ++ (err 3).message)] := by
  constructor
  · intro submit req_exit mint pid cfg refresh tx a k s err hsub hk
    rw [autosell_loop.eq_def]
    simp [hsub, hk]
  · intro tp spawn cfg st submit err t1 t2 hmr hsub ht1 ht2 hhint
    have hrun := autosell_loop_exhaust_run submit spawn.mint spawn.position_id cfg err t1 t2
      spawn.unsigned_tx_b64 cfg.slippage_pad_bps hmr hsub ht1 ht2
    have hexec : execute_auto_sell_with_refresh true submit (fun _ => true)
        [RecvEvent.msg t1, RecvEvent.msg t2] spawn.mint spawn.position_id cfg
        spawn.unsigned_tx_b64 =
        autosell_loop submit (fun _ => true) spawn.mint spawn.position_id cfg
          [RecvEvent.msg t1, RecvEvent.msg t2] spawn.unsigned_tx_b64 1 0
          cfg.slippage_pad_bps := by
      simp [execute_auto_sell_with_refresh]
    refine ⟨?_, ?_, ?_⟩
    · simp [auto_sell_task, resolve_token_program, hhint, hexec, hrun]
    · intro pid2 hne
      simp [auto_sell_task, resolve_token_program, hhint, hexec, hrun, hne]
    · simp [auto_sell_task, resolve_token_program, hhint, hexec, hrun]

/-- Witness for C4: a terminal-step instance at attempt 3 with the budget
spent, and a full exhaustion run against the empty state. -/
theorem autosell_exhaustion_witness :
    (autosell_loop (fun _ _ => Except.error ⟨true, "boom"⟩) (fun _ => false) 5 9
        ⟨2000, 20, 40, 2500, 25, 2⟩ [] "tx0" 3 2 2040 =
      ([AppEvent.SellAttempt 5 3 2040], [],
       Except.error ("autosell failed for position_id " ++ toString 9 ++ " after " ++
         toString 3 ++ " attempts: " ++ (TxError.mk true "boom").message))) ∧
    (auto_sell_task (Except.ok 4) true (fun _ _ => Except.error ⟨false, "e"⟩)
      (fun _ => true) [RecvEvent.msg "t1", RecvEvent.msg "t2"]
      ⟨9, 5, none, 10, 500000, "profit", "tx0"⟩ ⟨2000, 20, 40, 2500, 25, 2⟩
      empty_engine_maps).1.in_flight 9 = none :=
  ⟨autosell_exhaustion.1 (fun _ _ => Except.error ⟨true, "boom"⟩) (fun _ => false) 5 9
      ⟨2000, 20, 40, 2500, 25, 2⟩ [] "tx0" 3 2 2040 ⟨true, "boom"⟩ rfl (by decide),
   (autosell_exhaustion.2 4 ⟨9, 5, none, 10, 500000, "profit", "tx0"⟩
      ⟨2000, 20, 40, 2500, 25, 2⟩ empty_engine_maps (fun _ _ => Except.error ⟨false, "e"⟩)
      (fun _ => ⟨false, "e"⟩) "t1" "t2" rfl (fun _ _ => rfl) (by decide) (by decide) rfl).1⟩
/-- Claim C5 (retry-then-success): if the first attempt fails in the
submission phase (`tx_send`), the engine bumps slippage by the first-bump
20 bps, requests a refresh, receives a usable transaction over the channel,
and the second attempt with it succeeds, then the emitted trace ends with a
final `SellAttempt` reporting attempt 2 at the bumped slippage followed by a
`SellComplete` reporting that bumped slippage. -/
theorem retry_then_success (tp : Pubkey) (spawn : SpawnedExec) (cfg : SellConfig)
    (st : EngineMaps) (submit : Nat → String → Except TxError String)
    (err : TxError) (t1 sig : String)
    (hhint : spawn.token_program = none)
    (hfirst : cfg.slippage_retry_bump_bps_first = 20)
    (hpad : cfg.slippage_pad_bps + 20 ≤ cfg.slippage_max_bps)
    (hmax : cfg.slippage_max_bps ≤ 65535)
    (hretries : 1 ≤ cfg.max_retries)
    (hsub1 : submit 1 spawn.unsigned_tx_b64 = Except.error err)
    (hphase : err.is_confirm = false)
    (hsub2 : submit 2 (str_trim t1) = Except.ok sig)
    (ht1 : str_trim t1 ≠ "") :
    (auto_sell_task (Except.ok tp) true submit (fun _ => true) [RecvEvent.msg t1]
      spawn cfg st).2.1 =
      [AppEvent.SessionStarted spawn.mint tp,
       AppEvent.PositionTokensUpdated spawn.mint spawn.position_tokens,
       AppEvent.SellScheduled spawn.mint (canonical_sell_reason spawn.reason)
         spawn.profit_units,
       AppEvent.SellAttempt spawn.mint 1 cfg.slippage_pad_bps,
       AppEvent.SellRetry spawn.mint 1 "tx_send" err.message,
       AppEvent.SellAttempt spawn.mint 2 (cfg.slippage_pad_bps + 20),
       AppEvent.SellComplete spawn.mint sig (canonical_sell_reason spawn.reason)
         (cfg.slippage_pad_bps + 20),
       AppEvent.SessionClosed spawn.mint] := by
  have hbump : bumped_slippage_bps cfg.slippage_pad_bps 0 cfg =
      cfg.slippage_pad_bps + 20 := by
    simp [bumped_slippage_bps, hfirst]
    omega
  have hrun : autosell_loop submit (fun _ => true) spawn.mint spawn.position_id cfg
      [RecvEvent.msg t1] spawn.unsigned_tx_b64 1 0 cfg.slippage_pad_bps =
      ([AppEvent.SellAttempt spawn.mint 1 cfg.slippage_pad_bps,
        AppEvent.SellRetry spawn.mint 1 "tx_send" err.message,
        AppEvent.SellAttempt spawn.mint 2 (cfg.slippage_pad_bps + 20)],
       [StreamCmd.request_exit_signal spawn.position_id
         (some (cfg.slippage_pad_bps + 20))],
       Except.ok (sig, cfg.slippage_pad_bps + 20)) := by
    rw [autosell_loop.eq_def]
    simp [hsub1, recv_refreshed_sell_tx, ht1, hbump, classify_sell_retry_phase, hphase,
      show ¬(cfg.max_retries ≤ 0) by omega]
    rw [autosell_loop.eq_def]
    simp [hsub2]
  have hexec : execute_auto_sell_with_refresh true submit (fun _ => true)
      [RecvEvent.msg t1] spawn.mint spawn.position_id cfg spawn.unsigned_tx_b64 =
      autosell_loop submit (fun _ => true) spawn.mint spawn.position_id cfg
        [RecvEvent.msg t1] spawn.unsigned_tx_b64 1 0 cfg.slippage_pad_bps := by
    simp [execute_auto_sell_with_refresh]
  simp [auto_sell_task, resolve_token_program, hhint, hexec, hrun]

/-- Witness for C5: a concrete two-attempt run whose first submission fails
with a send-phase error and whose second, refreshed attempt succeeds. -/
theorem retry_then_success_witness :
    (auto_sell_task (Except.ok 4) true
      (fun a _ => if a = 1 then Except.error ⟨false, "rpc send failed"⟩
                  else Except.ok "SIG")
      (fun _ => true) [RecvEvent.msg "t1"] ⟨9, 5, none, 10, 500000, "profit", "tx0"⟩
      ⟨2000, 20, 40, 2500, 25, 2⟩ empty_engine_maps).2.1 =
      [AppEvent.SessionStarted 5 4,
       AppEvent.PositionTokensUpdated 5 10,
       AppEvent.SellScheduled 5 (canonical_sell_reason "profit") 500000,
       AppEvent.SellAttempt 5 1 2000,
       AppEvent.SellRetry 5 1 "tx_send" "rpc send failed",
       AppEvent.SellAttempt 5 2 (2000 + 20),
       AppEvent.SellComplete 5 "SIG" (canonical_sell_reason "profit") (2000 + 20),
       AppEvent.SessionClosed 5] :=
  retry_then_success 4 ⟨9, 5, none, 10, 500000, "profit", "tx0"⟩
    ⟨2000, 20, 40, 2500, 25, 2⟩ empty_engine_maps
    (fun a _ => if a = 1 then Except.error ⟨false, "rpc send failed"⟩
                else Except.ok "SIG")
    ⟨false, "rpc send failed"⟩ "t1" "SIG" rfl rfl (by decide) (by decide) (by decide)
    rfl rfl rfl (by decide)
/-- Claim C10 (executor failure frame): whenever the spawned auto-sell task
ends in an error — token-program resolution failure, or any executor error
(exhausted retries, refresh timeout, closed refresh channel, stream-send
failure) — the position snapshot, market context and stream state maps are
left completely unchanged; only the In-Flight Registry entry for the task's
position id is removed. -/
theorem executor_failure_frame (rpc_owner : Except String Pubkey)
    (decode_keypair_ok : Bool) (submit : Nat → String → Except TxError String)
    (req_exit : Nat → Bool) (refresh : List RecvEvent) (spawn : SpawnedExec)
    (cfg : SellConfig) (st : EngineMaps)
    (hfail : ∀ tp, resolve_token_program rpc_owner spawn.token_program spawn.mint =
        Except.ok tp →
      ∃ e, (execute_auto_sell_with_refresh decode_keypair_ok submit req_exit refresh
        spawn.mint spawn.position_id cfg spawn.unsigned_tx_b64).2.2 = Except.error e) :
    (auto_sell_task rpc_owner decode_keypair_ok submit req_exit refresh spawn cfg
      st).1.market_contexts = st.market_contexts ∧
    (auto_sell_task rpc_owner decode_keypair_ok submit req_exit refresh spawn cfg
      st).1.stream_states = st.stream_states ∧
    (auto_sell_task rpc_owner decode_keypair_ok submit req_exit refresh spawn cfg
      st).1.position_snapshots = st.position_snapshots ∧
    (auto_sell_task rpc_owner decode_keypair_ok submit req_exit refresh spawn cfg
      st).1.in_flight spawn.position_id = none ∧
    ∀ pid, pid ≠ spawn.position_id →
      (auto_sell_task rpc_owner decode_keypair_ok submit req_exit refresh spawn cfg
        st).1.in_flight pid = st.in_flight pid := by
  cases hres : resolve_token_program rpc_owner spawn.token_program spawn.mint with
  | error e =>
    refine ⟨?_, ?_, ?_, ?_, ?_⟩
    · simp [auto_sell_task, hres]
    · simp [auto_sell_task, hres]
    · simp [auto_sell_task, hres]
    · simp [auto_sell_task, hres]
    · intro pid hne
      simp [auto_sell_task, hres, hne]
  | ok tp =>
    obtain ⟨e, he⟩ := hfail tp hres
    refine ⟨?_, ?_, ?_, ?_, ?_⟩
    · simp [auto_sell_task, hres, he]
    · simp [auto_sell_task, hres, he]
    · simp [auto_sell_task, hres, he]
    · simp [auto_sell_task, hres, he]
    · intro pid hne
      simp [auto_sell_task, hres, he, hne]

/-- Witness for C10: a task whose token-program resolution fails against a
state holding an in-flight entry for its position id. -/
theorem executor_failure_frame_witness :
    (auto_sell_task (Except.error "boom") true (fun _ _ => Except.ok "SIG")
      (fun _ => true) [] ⟨9, 5, some "zz", 10, 0, "manual", "tx0"⟩
      ⟨2000, 20, 40, 2500, 25, 2⟩
      { empty_engine_maps with
        in_flight := fun pid => if pid = 9 then some [] else none }).1.market_contexts =
      ({ empty_engine_maps with
        in_flight := fun pid => if pid = 9 then some [] else none } :
          EngineMaps).market_contexts ∧
    (auto_sell_task (Except.error "boom") true (fun _ _ => Except.ok "SIG")
      (fun _ => true) [] ⟨9, 5, some "zz", 10, 0, "manual", "tx0"⟩
      ⟨2000, 20, 40, 2500, 25, 2⟩
      { empty_engine_maps with
        in_flight := fun pid => if pid = 9 then some [] else none }).1.stream_states =
      ({ empty_engine_maps with
        in_flight := fun pid => if pid = 9 then some [] else none } :
          EngineMaps).stream_states ∧
    (auto_sell_task (Except.error "boom") true (fun _ _ => Except.ok "SIG")
      (fun _ => true) [] ⟨9, 5, some "zz", 10, 0, "manual", "tx0"⟩
      ⟨2000, 20, 40, 2500, 25, 2⟩
      { empty_engine_maps with
        in_flight := fun pid => if pid = 9 then some [] else none }).1.position_snapshots =
      ({ empty_engine_maps with
        in_flight := fun pid => if pid = 9 then some [] else none } :
          EngineMaps).position_snapshots ∧
    (auto_sell_task (Except.error "boom") true (fun _ _ => Except.ok "SIG")
      (fun _ => true) [] ⟨9, 5, some "zz", 10, 0, "manual", "tx0"⟩
      ⟨2000, 20, 40, 2500, 25, 2⟩
      { empty_engine_maps with
        in_flight := fun pid => if pid = 9 then some [] else none }).1.in_flight 9 = none ∧
    ∀ pid, pid ≠ 9 →
      (auto_sell_task (Except.error "boom") true (fun _ _ => Except.ok "SIG")
        (fun _ => true) [] ⟨9, 5, some "zz", 10, 0, "manual", "tx0"⟩
        ⟨2000, 20, 40, 2500, 25, 2⟩
        { empty_engine_maps with
          in_flight := fun pid => if pid = 9 then some [] else none }).1.in_flight pid =
        ({ empty_engine_maps with
          in_flight := fun pid => if pid = 9 then some [] else none } :
            EngineMaps).in_flight pid :=
  executor_failure_frame (Except.error "boom") true (fun _ _ => Except.ok "SIG")
    (fun _ => true) [] ⟨9, 5, some "zz", 10, 0, "manual", "tx0"⟩
    ⟨2000, 20, 40, 2500, 25, 2⟩
    { empty_engine_maps with in_flight := fun pid => if pid = 9 then some [] else none }
    (fun _tp h => Except.noConfusion h)
